import Mathlib

/-!
Verification of the TAT/SLA metrics core of the intraoperative frozen-section
dashboard (files `app.py` and `app3.py`).

Timestamps are modelled as rational numbers of seconds since an arbitrary
epoch (Python stores them as ISO-8601 text and computes
`(t1 - t0).total_seconds() / 60.0`).  A stored timestamp field is text that
one, both, or neither of the two parsers used by the two implementations
accepts:

* `datetime.fromisoformat` (used by `parse_iso` in `app.py`) accepts strict
  ISO-8601 text only;
* `pd.to_datetime(..., errors="coerce")` (used by `compute_metrics` in
  `app3.py`) accepts a strict superset of formats, e.g. `"01/02/2024 10:00"`,
  which `fromisoformat` rejects.

`RawField` classifies a stored field by this acceptance behaviour, carrying
the denoted instant when at least one parser accepts it.  Missing float
values (`np.nan` / `NaT`) are modelled as `Option.none`.
-/

/-- A stored timestamp field of a case row, classified by how the two
parsers of the code base treat its text.  `null` is SQL NULL, the empty
string, or a pandas missing value; `isoText t` is strict ISO-8601 text
denoting instant `t` (seconds since epoch), accepted by both
`datetime.fromisoformat` and `pd.to_datetime`; `pandasOnlyText t` is text
(such as `"01/02/2024 10:00"`) that `pd.to_datetime` parses to `t` but
`datetime.fromisoformat` raises on; `malformed` is text neither parser
accepts. -/
inductive RawField where
  | null : RawField
  | isoText (t : ℚ) : RawField
  | pandasOnlyText (t : ℚ) : RawField
  | malformed : RawField
deriving DecidableEq, Repr

/-- One row of the `cases` table, restricted to the columns the metrics
engine reads: the stored lifecycle state `estado` (free text, may drift from
the timestamps) and the five milestone timestamp columns. -/
structure RawCase where
  estado : Option String
  t_inicio : RawField
  t_recepcion : RawField
  t_criostato : RawField
  t_diagnostico : RawField
  t_comunicado : RawField
deriving DecidableEq, Repr

/-- A case row after `compute_metrics`: the parsed timestamp columns plus
the derived columns `min_recep_a_diag`, `min_diag_a_com`, `min_total`
(fractional minutes, `none` for NaN), `cumple_SLA` and `estado_calc`. -/
structure CaseMetrics where
  estado : Option String
  t_inicio : Option ℚ
  t_recepcion : Option ℚ
  t_criostato : Option ℚ
  t_diagnostico : Option ℚ
  t_comunicado : Option ℚ
  min_recep_a_diag : Option ℚ
  min_diag_a_com : Option ℚ
  min_total : Option ℚ
  cumple_SLA : Bool
  estado_calc : String
deriving DecidableEq, Repr

/-- The dictionary returned by `summarize`.  A key that is absent from the
returned Python dict, or whose value is `np.nan`, is modelled as `none`. -/
structure Summary where
  n : ℕ
  n_con_TAT : Option ℕ
  mediana_min : Option ℚ
  p90_min : Option ℚ
  cumplimiento : Option ℚ
  prom_recep_diag : Option ℚ
  prom_diag_com : Option ℚ
deriving DecidableEq, Repr

/-- Values of a float column sorted ascending, as NumPy does internally for
`np.nanmedian` and `np.nanpercentile` (the column is NaN-free by the time it
is sorted, because `summarize` filters on `notna` first). -/
def sortedVals (l : List ℚ) : List ℚ :=
  List.insertionSort (fun a b => a ≤ b) l

/-- Embedding of `np.nanmedian` on a NaN-free float column: `none` on an
empty sample, otherwise the middle value of the sorted column (the average
of the two middle values when the sample size is even). -/
def nanmedian (l : List ℚ) : Option ℚ :=
  if l = [] then none
  else
    let s := sortedVals l
    let n := l.length
    if n % 2 = 1 then some (s.getD (n / 2) 0)
    else some ((s.getD (n / 2 - 1) 0 + s.getD (n / 2) 0) / 2)

/-- Embedding of `np.nanpercentile(l, 90)` on a NaN-free float column, with
NumPy's default linear-interpolation method: the virtual index is
`h = (n - 1) * 90 / 100`; the result interpolates between the sorted values
at positions `⌊h⌋` and `min (⌊h⌋ + 1) (n - 1)`. -/
def nanpercentile90 (l : List ℚ) : Option ℚ :=
  if l = [] then none
  else
    let s := sortedVals l
    let n := l.length
    let h : ℚ := (n - 1) * 90 / 100
    let i : ℕ := (⌊h⌋).toNat
    let a := s.getD i 0
    let b := s.getD (min (i + 1) (n - 1)) 0
    some (a + (h - (i : ℚ)) * (b - a))

/-- Embedding of `np.nanmean` on a float column that may contain NaN: the
mean of the non-NaN entries, `none` (NaN) when there is no such entry. -/
def nanmean (l : List (Option ℚ)) : Option ℚ :=
  let vs := l.reduceOption
  if vs = [] then none else some (vs.sum / vs.length)

namespace App

/-- Embedding of `parse_iso` in `app.py`: missing or empty text gives
`None`; otherwise `datetime.fromisoformat` is tried and any exception is
swallowed into `None`.  `fromisoformat` accepts exactly the `isoText`
class. -/
def parse_iso : RawField → Option ℚ
  | RawField.null => none
  | RawField.isoText t => some t
  | RawField.pandasOnlyText _ => none
  | RawField.malformed => none

/-- Embedding of `duration_minutes` in `app.py`: `np.nan` (here `none`)
when either endpoint is `None`, otherwise
`(t1 - t0).total_seconds() / 60.0`. -/
def duration_minutes : Option ℚ → Option ℚ → Option ℚ
  | some t0, some t1 => some ((t1 - t0) / 60)
  | _, _ => none

/-- The row-wise body of `compute_metrics` in `app.py`: parse the five
timestamp columns with `parse_iso`, derive the three durations with
`duration_minutes`, derive `cumple_SLA` as the pandas comparison
`min_total <= sla_min` (in which NaN compares `False`), and derive
`estado_calc` from the presence of the parsed diagnosis and communication
timestamps. -/
def compute_row (sla : ℚ) (c : RawCase) : CaseMetrics :=
  let tr := parse_iso c.t_recepcion
  let tk := parse_iso c.t_criostato
  let td := parse_iso c.t_diagnostico
  let tm := parse_iso c.t_comunicado
  let ti := parse_iso c.t_inicio
  { estado := c.estado
    t_inicio := ti
    t_recepcion := tr
    t_criostato := tk
    t_diagnostico := td
    t_comunicado := tm
    min_recep_a_diag := duration_minutes tr td
    min_diag_a_com := duration_minutes td tm
    min_total := duration_minutes tr tm
    cumple_SLA :=
      match duration_minutes tr tm with
      | some m => decide (m ≤ sla)
      | none => false
    estado_calc := if td.isSome && tm.isSome then "reportado" else "pendiente" }

/-- The successful branch of `compute_metrics` in `app.py`: the row-wise
computation applied to every row of the frame.  This branch is reached
exactly on non-empty frames; the empty-frame failure of the source is
modelled by `compute_metrics_df` below, which wraps this function. -/
def compute_metrics (df : List RawCase) (sla : ℚ) : List CaseMetrics :=
  df.map (compute_row sla)

/-- Embedding of `compute_metrics` in `app.py` as it actually executes,
failure mode included.  On a 0-row frame, `df.apply(..., axis=1)` takes
pandas' empty-result path (the trial call of the lambda on an empty row
raises, so no reduction is inferred) and returns a copy of the whole
multi-column frame; assigning that to the single column
`min_recep_a_diag` then raises `ValueError`.  On a non-empty frame every
row is annotated by the row-wise computation. -/
def compute_metrics_df (df : List RawCase) (sla : ℚ) :
    Except String (List CaseMetrics) :=
  if df = [] then
    Except.error
      "ValueError: Cannot set a DataFrame with multiple columns to the single column min_recep_a_diag"
  else Except.ok (compute_metrics df sla)

/-- Embedding of `summarize` in `app.py`: restrict to the rows whose
`min_total` is not NaN; if none remain return the bare dict `{"n": 0}`
(every other key absent); otherwise return the full statistics dict. -/
def summarize (rows : List CaseMetrics) (sla : ℚ) : Summary :=
  let ok := rows.filter (fun r => r.min_total.isSome)
  if ok = [] then
    { n := 0, n_con_TAT := none, mediana_min := none, p90_min := none,
      cumplimiento := none, prom_recep_diag := none, prom_diag_com := none }
  else
    { n := rows.length
      n_con_TAT := some ok.length
      mediana_min := nanmedian (ok.filterMap (fun r => r.min_total))
      p90_min := nanpercentile90 (ok.filterMap (fun r => r.min_total))
      cumplimiento := some (100 *
        ((ok.countP (fun r =>
            match r.min_total with
            | some m => decide (m ≤ sla)
            | none => false) : ℕ) : ℚ) / (ok.length : ℚ))
      prom_recep_diag := nanmean (ok.map (fun r => r.min_recep_a_diag))
      prom_diag_com := nanmean (ok.map (fun r => r.min_diag_a_com)) }

end App

namespace App3

/-- Embedding of `pd.to_datetime(col, errors="coerce")` as used by
`compute_metrics` in `app3.py`: missing values stay missing (`NaT`),
unparseable text is coerced to `NaT`, and both the strict-ISO and the
pandas-only text classes parse to their denoted instant. -/
def to_datetime : RawField → Option ℚ
  | RawField.null => none
  | RawField.isoText t => some t
  | RawField.pandasOnlyText t => some t
  | RawField.malformed => none

/-- Embedding of the vectorized `(colX - colY).dt.total_seconds() / 60` of
`app3.py`: `NaT` in either operand propagates to NaN, otherwise the
difference `x - y` converted to minutes. -/
def subMinutes : Option ℚ → Option ℚ → Option ℚ
  | some x, some y => some ((x - y) / 60)
  | _, _ => none

/-- The per-row effect of the vectorized `compute_metrics` in `app3.py`:
columns parsed with `pd.to_datetime(errors="coerce")`, durations via
column subtraction (NaT-propagating), `cumple_SLA` as the pandas comparison
`min_total <= float(sla_min)` (NaN compares `False`), `estado_calc` via
`np.where` on the presence of diagnosis and communication. -/
def compute_row (sla : ℚ) (c : RawCase) : CaseMetrics :=
  let tr := to_datetime c.t_recepcion
  let tk := to_datetime c.t_criostato
  let td := to_datetime c.t_diagnostico
  let tm := to_datetime c.t_comunicado
  let ti := to_datetime c.t_inicio
  { estado := c.estado
    t_inicio := ti
    t_recepcion := tr
    t_criostato := tk
    t_diagnostico := td
    t_comunicado := tm
    min_recep_a_diag := subMinutes td tr
    min_diag_a_com := subMinutes tm td
    min_total := subMinutes tm tr
    cumple_SLA :=
      match subMinutes tm tr with
      | some m => decide (m ≤ sla)
      | none => false
    estado_calc := if td.isSome && tm.isSome then "reportado" else "pendiente" }

/-- Embedding of `compute_metrics` in `app3.py`: an explicitly handled
empty frame yields the empty frame with the derived columns present; a
non-empty frame gets the vectorized computation, which acts row-wise. -/
def compute_metrics (df : List RawCase) (sla : ℚ) : List CaseMetrics :=
  if df = [] then [] else df.map (compute_row sla)

/-- Embedding of `summarize` in `app3.py`: like `app.py`, except that the
empty-`df_ok` branch returns the fully populated dict with `n` the raw row
count, `n_con_TAT = 0`, `cumplimiento_% = 0.0`, and NaN for the order
statistics and interval means. -/
def summarize (rows : List CaseMetrics) (sla : ℚ) : Summary :=
  let ok := rows.filter (fun r => r.min_total.isSome)
  if ok = [] then
    { n := rows.length, n_con_TAT := some 0, mediana_min := none,
      p90_min := none, cumplimiento := some 0, prom_recep_diag := none,
      prom_diag_com := none }
  else
    { n := rows.length
      n_con_TAT := some ok.length
      mediana_min := nanmedian (ok.filterMap (fun r => r.min_total))
      p90_min := nanpercentile90 (ok.filterMap (fun r => r.min_total))
      cumplimiento := some (100 *
        ((ok.countP (fun r =>
            match r.min_total with
            | some m => decide (m ≤ sla)
            | none => false) : ℕ) : ℚ) / (ok.length : ℚ))
      prom_recep_diag := nanmean (ok.map (fun r => r.min_recep_a_diag))
      prom_diag_com := nanmean (ok.map (fun r => r.min_diag_a_com)) }

end App3

/-- The spec's prescription for `prom_recep_diag` (claim wording): the mean
of the reception→diagnosis durations over ALL cases where that specific
interval is defined, independent of whether `min_total` is defined. -/
def spec_prom_recep_diag (rows : List CaseMetrics) : Option ℚ :=
  nanmean (rows.map (fun r => r.min_recep_a_diag))

/-- True of a stored timestamp field on which `datetime.fromisoformat` and
`pd.to_datetime` agree (both reject it or both parse it to the same
instant); only the `pandasOnlyText` class violates this. -/
def RawField.bothAgree : RawField → Bool
  | RawField.pandasOnlyText _ => false
  | _ => true

/-- The five derived values of a metrics row, as listed by the
refinement claim. -/
def derivedVals (r : CaseMetrics) : Option ℚ × Option ℚ × Option ℚ × Bool × String :=
  (r.min_recep_a_diag, r.min_diag_a_com, r.min_total, r.cumple_SLA, r.estado_calc)

/-! Canonical source-level views of the two pipelines, used by the proofs. -/

/-- The total reception→communication duration of a raw case under the
`app.py` pipeline. -/
def appRowTotal (c : RawCase) : Option ℚ :=
  App.duration_minutes (App.parse_iso c.t_recepcion) (App.parse_iso c.t_comunicado)

/-- Raw cases whose total duration is defined under the `app.py`
pipeline (the `df_ok` subset of `summarize`). -/
def appOk (df : List RawCase) : List RawCase :=
  df.filter fun c => (appRowTotal c).isSome

/-- The defined total durations of a collection under the `app.py`
pipeline. -/
def appTotals (df : List RawCase) : List ℚ :=
  df.filterMap appRowTotal

/-- The total reception→communication duration of a raw case under the
`app3.py` pipeline. -/
def app3RowTotal (c : RawCase) : Option ℚ :=
  App3.subMinutes (App3.to_datetime c.t_comunicado) (App3.to_datetime c.t_recepcion)

/-- Raw cases whose total duration is defined under the `app3.py`
pipeline. -/
def app3Ok (df : List RawCase) : List RawCase :=
  df.filter fun c => (app3RowTotal c).isSome

/-- The defined total durations of a collection under the `app3.py`
pipeline. -/
def app3Totals (df : List RawCase) : List ℚ :=
  df.filterMap app3RowTotal

/-! Generic list lemmas used to relate the frame-level computations to the
canonical views. -/

lemma filterMap_filter_isSome {α : Type} (g : α → Option ℚ) (l : List α) :
    (l.filter fun a => (g a).isSome).filterMap g = l.filterMap g := by
  induction l with
  | nil => rfl
  | cons a t ih =>
    cases h : g a <;>
      simp [List.filter_cons, List.filterMap_cons, h, ih]

lemma filterMap_filter_both {α : Type} (p : α → Bool) (g : α → Option ℚ)
    (l : List α) :
    (l.filter p).filterMap g =
      (l.filter fun a => p a && (g a).isSome).filterMap g := by
  induction l with
  | nil => rfl
  | cons a t ih =>
    by_cases hp : p a
    · cases hg : g a <;>
        simp [List.filter_cons, List.filterMap_cons, hp, hg, ih]
    · simp [List.filter_cons, hp, ih]

lemma length_filterMap_both {α : Type} (p : α → Bool) (g : α → Option ℚ)
    (l : List α) :
    ((l.filter fun a => p a && (g a).isSome).filterMap g).length =
      (l.filter fun a => p a && (g a).isSome).length := by
  induction l with
  | nil => rfl
  | cons a t ih =>
    by_cases hp : p a
    · cases hg : g a <;>
        simp [List.filter_cons, List.filterMap_cons, hp, hg, ih]
    · simp [List.filter_cons, hp, ih]

lemma reduceOption_map_eq_filterMap {α : Type} (g : α → Option ℚ)
    (l : List α) :
    (l.map g).reduceOption = l.filterMap g := by
  show (l.map g).filterMap id = l.filterMap g
  rw [List.filterMap_map]
  rfl

/-- The value of `np.nanmean` on a column obtained by projecting a filtered list is the
plain mean over the sublist on which both the filter predicate holds and
the projection is defined. -/
lemma nanmean_map_filter {α : Type} [DecidableEq α] (p : α → Bool)
    (g : α → Option ℚ) (l : List α) :
    nanmean ((l.filter p).map g) =
      if (l.filter fun a => p a && (g a).isSome) = [] then none
      else some (((l.filter fun a => p a && (g a).isSome).filterMap g).sum /
        (((l.filter fun a => p a && (g a).isSome).length : ℕ) : ℚ)) := by
  have h1 : ((l.filter p).map g).reduceOption =
      (l.filter fun a => p a && (g a).isSome).filterMap g := by
    rw [reduceOption_map_eq_filterMap, filterMap_filter_both]
  have hlen := length_filterMap_both p g l
  have hiff : ((l.filter fun a => p a && (g a).isSome).filterMap g = []) ↔
      ((l.filter fun a => p a && (g a).isSome) = []) := by
    rw [← List.length_eq_zero, hlen, List.length_eq_zero]
  simp only [nanmean, h1, hlen]
  exact if_congr hiff rfl rfl

/-! Pointwise facts about the two row computations. -/

lemma app_row_min_total (sla : ℚ) (c : RawCase) :
    (App.compute_row sla c).min_total = appRowTotal c := rfl

lemma app3_row_min_total (sla : ℚ) (c : RawCase) :
    (App3.compute_row sla c).min_total = app3RowTotal c := rfl

lemma duration_minutes_eq_subMinutes (a b : Option ℚ) :
    App.duration_minutes a b = App3.subMinutes b a := by
  cases a <;> cases b <;> rfl

lemma parse_agree {f : RawField} (h : f.bothAgree = true) :
    App.parse_iso f = App3.to_datetime f := by
  cases f with
  | null => rfl
  | isoText t => rfl
  | pandasOnlyText t => simp [RawField.bothAgree] at h
  | malformed => rfl

lemma derived_row_agree (sla : ℚ) (c : RawCase)
    (h1 : c.t_recepcion.bothAgree = true)
    (h2 : c.t_diagnostico.bothAgree = true)
    (h3 : c.t_comunicado.bothAgree = true) :
    derivedVals (App.compute_row sla c) = derivedVals (App3.compute_row sla c) := by
  simp only [derivedVals, App.compute_row, App3.compute_row,
    duration_minutes_eq_subMinutes, parse_agree h1, parse_agree h2, parse_agree h3]

/-! Canonical forms of the two `summarize ∘ compute_metrics` pipelines,
with every statistic expressed directly over the raw collection. -/

lemma app_ok_eq (df : List RawCase) (sla : ℚ) :
    (App.compute_metrics df sla).filter (fun r => r.min_total.isSome) =
      (appOk df).map (App.compute_row sla) := by
  unfold App.compute_metrics appOk
  rw [List.filter_map]
  rfl

lemma app3_ok_eq (df : List RawCase) (sla : ℚ) :
    (App3.compute_metrics df sla).filter (fun r => r.min_total.isSome) =
      (app3Ok df).map (App3.compute_row sla) := by
  unfold App3.compute_metrics app3Ok
  by_cases hdf : df = []
  · subst hdf; rfl
  · rw [if_neg hdf, List.filter_map]
    rfl

lemma app_summarize_canon (df : List RawCase) (sla : ℚ) :
    App.summarize (App.compute_metrics df sla) sla =
      if appOk df = [] then
        { n := 0, n_con_TAT := none, mediana_min := none, p90_min := none,
          cumplimiento := none, prom_recep_diag := none, prom_diag_com := none }
      else
        { n := df.length
          n_con_TAT := some (appOk df).length
          mediana_min := nanmedian (appTotals df)
          p90_min := nanpercentile90 (appTotals df)
          cumplimiento := some (100 *
            (((appOk df).countP fun c =>
                match appRowTotal c with
                | some m => decide (m ≤ sla)
                | none => false : ℕ) : ℚ) / ((appOk df).length : ℚ))
          prom_recep_diag := nanmean ((appOk df).map fun c =>
            App.duration_minutes (App.parse_iso c.t_recepcion)
              (App.parse_iso c.t_diagnostico))
          prom_diag_com := nanmean ((appOk df).map fun c =>
            App.duration_minutes (App.parse_iso c.t_diagnostico)
              (App.parse_iso c.t_comunicado)) } := by
  have hok := app_ok_eq df sla
  have hvals : ((appOk df).map (App.compute_row sla)).filterMap
      (fun r => r.min_total) = appTotals df := by
    rw [List.filterMap_map]
    show (appOk df).filterMap appRowTotal = appTotals df
    unfold appOk appTotals
    exact filterMap_filter_isSome appRowTotal df
  unfold App.summarize
  rw [hok]
  by_cases hT : appOk df = []
  · simp [hT]
  · have hT2 : (appOk df).map (App.compute_row sla) ≠ [] := by
      simpa [List.map_eq_nil_iff] using hT
    rw [if_neg hT2, if_neg hT]
    congr 1
    · show (App.compute_metrics df sla).length = df.length
      exact List.length_map df _
    · rw [List.length_map]
    · rw [hvals]
    · rw [hvals]
    · rw [List.countP_map, List.length_map]
      rfl
    · rw [List.map_map]
      rfl
    · rw [List.map_map]
      rfl

lemma app3_summarize_canon (df : List RawCase) (sla : ℚ) :
    App3.summarize (App3.compute_metrics df sla) sla =
      if app3Ok df = [] then
        { n := df.length, n_con_TAT := some 0, mediana_min := none,
          p90_min := none, cumplimiento := some 0, prom_recep_diag := none,
          prom_diag_com := none }
      else
        { n := df.length
          n_con_TAT := some (app3Ok df).length
          mediana_min := nanmedian (app3Totals df)
          p90_min := nanpercentile90 (app3Totals df)
          cumplimiento := some (100 *
            (((app3Ok df).countP fun c =>
                match app3RowTotal c with
                | some m => decide (m ≤ sla)
                | none => false : ℕ) : ℚ) / ((app3Ok df).length : ℚ))
          prom_recep_diag := nanmean ((app3Ok df).map fun c =>
            App3.subMinutes (App3.to_datetime c.t_diagnostico)
              (App3.to_datetime c.t_recepcion))
          prom_diag_com := nanmean ((app3Ok df).map fun c =>
            App3.subMinutes (App3.to_datetime c.t_comunicado)
              (App3.to_datetime c.t_diagnostico)) } := by
  have hok := app3_ok_eq df sla
  have hvals : ((app3Ok df).map (App3.compute_row sla)).filterMap
      (fun r => r.min_total) = app3Totals df := by
    rw [List.filterMap_map]
    show (app3Ok df).filterMap app3RowTotal = app3Totals df
    unfold app3Ok app3Totals
    exact filterMap_filter_isSome app3RowTotal df
  have hlen : (App3.compute_metrics df sla).length = df.length := by
    unfold App3.compute_metrics
    by_cases hdf : df = []
    · subst hdf; rfl
    · rw [if_neg hdf, List.length_map]
  unfold App3.summarize
  rw [hok]
  by_cases hT : app3Ok df = []
  · simp [hT, hlen]
  · have hT2 : (app3Ok df).map (App3.compute_row sla) ≠ [] := by
      simpa [List.map_eq_nil_iff] using hT
    rw [if_neg hT2, if_neg hT]
    congr 1
    · rw [List.length_map]
    · rw [hvals]
    · rw [hvals]
    · rw [List.countP_map, List.length_map]
      rfl
    · rw [List.map_map]
      rfl
    · rw [List.map_map]
      rfl

/-! Order statistics are invariant under permutation of the sample. -/

lemma sortedVals_perm {l1 l2 : List ℚ} (h : List.Perm l1 l2) :
    sortedVals l1 = sortedVals l2 :=
  List.eq_of_perm_of_sorted
    (((List.perm_insertionSort _ l1).trans h).trans
      (List.perm_insertionSort _ l2).symm)
    (List.sorted_insertionSort _ l1) (List.sorted_insertionSort _ l2)

lemma nanmedian_perm {l1 l2 : List ℚ} (h : List.Perm l1 l2) :
    nanmedian l1 = nanmedian l2 := by
  by_cases h1 : l1 = []
  · subst h1
    rw [h.symm.eq_nil]
  · have h2 : l2 ≠ [] := fun hh => h1 (hh ▸ h).eq_nil
    simp only [nanmedian, if_neg h1, if_neg h2, sortedVals_perm h, h.length_eq]

lemma nanpercentile90_perm {l1 l2 : List ℚ} (h : List.Perm l1 l2) :
    nanpercentile90 l1 = nanpercentile90 l2 := by
  by_cases h1 : l1 = []
  · subst h1
    rw [h.symm.eq_nil]
  · have h2 : l2 ≠ [] := fun hh => h1 (hh ▸ h).eq_nil
    simp only [nanpercentile90, if_neg h1, if_neg h2, sortedVals_perm h,
      h.length_eq]

/-! Concrete example cases used by witnesses and counterexamples. -/

/-- A fully timestamped case: reception at 0 s, diagnosis at 600 s,
communication at 900 s (the 10-and-5-minute scenario of the spec). -/
def exFull : RawCase :=
  { estado := some "pendiente", t_inicio := RawField.null,
    t_recepcion := RawField.isoText 0, t_criostato := RawField.null,
    t_diagnostico := RawField.isoText 600, t_comunicado := RawField.isoText 900 }

/-- A case with reception and diagnosis defined (100 minutes apart) but no
communication timestamp, so its total duration is undefined. -/
def exNoCom : RawCase :=
  { estado := some "reportado", t_inicio := RawField.null,
    t_recepcion := RawField.isoText 0, t_criostato := RawField.null,
    t_diagnostico := RawField.isoText 6000, t_comunicado := RawField.null }

/-- A case with inconsistent timestamps: communication (30 s) precedes
reception (900 s), so the total duration is negative and fractional. -/
def exNeg : RawCase :=
  { estado := none, t_inicio := RawField.null,
    t_recepcion := RawField.isoText 900, t_criostato := RawField.null,
    t_diagnostico := RawField.null, t_comunicado := RawField.isoText 30 }

/-- A case whose reception text is parseable by `pd.to_datetime` but not by
`datetime.fromisoformat`. -/
def exPandas : RawCase :=
  { estado := none, t_inicio := RawField.null,
    t_recepcion := RawField.pandasOnlyText 0, t_criostato := RawField.null,
    t_diagnostico := RawField.null, t_comunicado := RawField.isoText 900 }

/-- A case whose reception text is unparseable by both parsers. -/
def exBad : RawCase :=
  { estado := none, t_inicio := RawField.null,
    t_recepcion := RawField.malformed, t_criostato := RawField.null,
    t_diagnostico := RawField.isoText 600, t_comunicado := RawField.isoText 900 }

/-! Row-level projection and branch lemmas. -/

lemma app_row_cumple (sla : ℚ) (c : RawCase) :
    (App.compute_row sla c).cumple_SLA =
      (match appRowTotal c with
       | some m => decide (m ≤ sla)
       | none => false) := rfl

lemma app3_row_cumple (sla : ℚ) (c : RawCase) :
    (App3.compute_row sla c).cumple_SLA =
      (match app3RowTotal c with
       | some m => decide (m ≤ sla)
       | none => false) := rfl

lemma app_row_estado (sla : ℚ) (c : RawCase) :
    (App.compute_row sla c).estado_calc =
      (if (App.parse_iso c.t_diagnostico).isSome &&
          (App.parse_iso c.t_comunicado).isSome
       then "reportado" else "pendiente") := rfl

lemma app3_row_estado (sla : ℚ) (c : RawCase) :
    (App3.compute_row sla c).estado_calc =
      (if (App3.to_datetime c.t_diagnostico).isSome &&
          (App3.to_datetime c.t_comunicado).isSome
       then "reportado" else "pendiente") := rfl

lemma cumple_match_iff (o : Option ℚ) (sla : ℚ) :
    ((match o with
      | some m => decide (m ≤ sla)
      | none => false) = true) ↔ ∃ m, o = some m ∧ m ≤ sla := by
  cases o <;> simp

lemma duration_minutes_none_left (b : Option ℚ) :
    App.duration_minutes none b = none := by
  cases b <;> rfl

lemma subMinutes_none_right (a : Option ℚ) :
    App3.subMinutes a none = none := by
  cases a <;> rfl

/-- C1: for every case whose reception and communication timestamps are
both defined, the derived `min_total` equals `(communication − reception)`
expressed in minutes, exactly, fractional and negative values passed
through unmodified, in both the `app.py` and the `app3.py` pipeline. -/
theorem claim1_min_total_exact (c : RawCase) (sla r m : ℚ) :
    (App.parse_iso c.t_recepcion = some r →
      App.parse_iso c.t_comunicado = some m →
      (App.compute_row sla c).min_total = some ((m - r) / 60)) ∧
    (App3.to_datetime c.t_recepcion = some r →
      App3.to_datetime c.t_comunicado = some m →
      (App3.compute_row sla c).min_total = some ((m - r) / 60)) := by
  constructor
  · intro h1 h2
    rw [app_row_min_total]
    unfold appRowTotal
    rw [h1, h2]
    rfl
  · intro h1 h2
    rw [app3_row_min_total]
    unfold app3RowTotal
    rw [h1, h2]
    rfl

/-- Witness for C1 at a concrete case whose communication precedes its
reception: the duration is negative and fractional and flows through. -/
theorem claim1_min_total_exact_witness :
    (App.compute_row 30 exNeg).min_total = some (((30 : ℚ) - 900) / 60) ∧
    (App3.compute_row 30 exNeg).min_total = some (((30 : ℚ) - 900) / 60) ∧
    ((30 : ℚ) - 900) / 60 < 0 :=
  ⟨(claim1_min_total_exact exNeg 30 900 30).1 rfl rfl,
   (claim1_min_total_exact exNeg 30 900 30).2 rfl rfl, by norm_num⟩

/-- C2: in both pipelines `cumple_SLA` is true exactly when the total
duration is defined and at most the threshold, and an undefined total
duration yields `false` (the pandas NaN comparison), never an error. -/
theorem claim2_cumple_sla_iff (c : RawCase) (sla : ℚ) :
    ((App.compute_row sla c).cumple_SLA = true ↔
      ∃ m, (App.compute_row sla c).min_total = some m ∧ m ≤ sla) ∧
    ((App.compute_row sla c).min_total = none →
      (App.compute_row sla c).cumple_SLA = false) ∧
    ((App3.compute_row sla c).cumple_SLA = true ↔
      ∃ m, (App3.compute_row sla c).min_total = some m ∧ m ≤ sla) ∧
    ((App3.compute_row sla c).min_total = none →
      (App3.compute_row sla c).cumple_SLA = false) := by
  refine ⟨?_, ?_, ?_, ?_⟩
  · rw [app_row_cumple, app_row_min_total]
    exact cumple_match_iff _ _
  · rw [app_row_min_total, app_row_cumple]
    intro h
    rw [h]
  · rw [app3_row_cumple, app3_row_min_total]
    exact cumple_match_iff _ _
  · rw [app3_row_min_total, app3_row_cumple]
    intro h
    rw [h]

/-- Witness for C2: the no-communication case has undefined `min_total`
and a `false` flag in both pipelines. -/
theorem claim2_cumple_sla_iff_witness :
    (App.compute_row 30 exNoCom).cumple_SLA = false ∧
    (App3.compute_row 30 exNoCom).cumple_SLA = false :=
  ⟨(claim2_cumple_sla_iff exNoCom 30).2.1 rfl,
   (claim2_cumple_sla_iff exNoCom 30).2.2.2 rfl⟩

/-- C5: in both pipelines `estado_calc` is `"reportado"` (the spec's
`reported`) exactly when the parsed diagnosis and communication timestamps
are both present, `"pendiente"` (`pending`) otherwise, and it is unchanged
by replacing the stored state field with any value whatsoever. -/
theorem claim5_estado_calc_presence (c : RawCase) (sla : ℚ) (s : Option String) :
    ((App.compute_row sla c).estado_calc = "reportado" ↔
      (App.parse_iso c.t_diagnostico).isSome = true ∧
        (App.parse_iso c.t_comunicado).isSome = true) ∧
    ((App.compute_row sla c).estado_calc = "pendiente" ↔
      ((App.parse_iso c.t_diagnostico).isSome = false ∨
        (App.parse_iso c.t_comunicado).isSome = false)) ∧
    (App.compute_row sla { c with estado := s }).estado_calc =
      (App.compute_row sla c).estado_calc ∧
    ((App3.compute_row sla c).estado_calc = "reportado" ↔
      (App3.to_datetime c.t_diagnostico).isSome = true ∧
        (App3.to_datetime c.t_comunicado).isSome = true) ∧
    ((App3.compute_row sla c).estado_calc = "pendiente" ↔
      ((App3.to_datetime c.t_diagnostico).isSome = false ∨
        (App3.to_datetime c.t_comunicado).isSome = false)) ∧
    (App3.compute_row sla { c with estado := s }).estado_calc =
      (App3.compute_row sla c).estado_calc := by
  refine ⟨?_, ?_, rfl, ?_, ?_, rfl⟩
  · rw [app_row_estado]
    cases hd : (App.parse_iso c.t_diagnostico).isSome <;>
      cases hm : (App.parse_iso c.t_comunicado).isSome <;> simp
  · rw [app_row_estado]
    cases hd : (App.parse_iso c.t_diagnostico).isSome <;>
      cases hm : (App.parse_iso c.t_comunicado).isSome <;> simp
  · rw [app3_row_estado]
    cases hd : (App3.to_datetime c.t_diagnostico).isSome <;>
      cases hm : (App3.to_datetime c.t_comunicado).isSome <;> simp
  · rw [app3_row_estado]
    cases hd : (App3.to_datetime c.t_diagnostico).isSome <;>
      cases hm : (App3.to_datetime c.t_comunicado).isSome <;> simp

/-- C8, evaluated at the failing input: on an empty collection the
`app.py` pipeline raises `ValueError` (pandas' empty `apply` yields the
multi-column frame, whose single-column assignment fails) where the claim
demands an empty output without error; `app3.py` returns the empty
annotated frame as claimed; malformed timestamp text is treated as an
absent value by both parsers, as claimed, so a case with unparseable
reception text simply gets undefined reception-based durations. -/
theorem claim8_empty_frame_raises (sla : ℚ) :
    App.compute_metrics_df [] sla =
      Except.error
        "ValueError: Cannot set a DataFrame with multiple columns to the single column min_recep_a_diag" ∧
    App3.compute_metrics [] sla = [] ∧
    App.parse_iso RawField.malformed = none ∧
    App3.to_datetime RawField.malformed = none ∧
    (App.compute_row sla exBad).min_total = none ∧
    (App.compute_row sla exBad).min_recep_a_diag = none ∧
    (App3.compute_row sla exBad).min_total = none ∧
    (App3.compute_row sla exBad).min_recep_a_diag = none :=
  ⟨rfl, rfl, rfl, rfl, rfl, rfl, rfl, rfl⟩

/-- C6: recomputing with a different SLA threshold changes only the
compliance-derived outputs.  Erasing the per-case `cumple_SLA` flag makes
the annotated collections of two thresholds identical, and erasing the
`cumplimiento_%` entry makes the two summaries identical, in both
pipelines. -/
theorem claim6_threshold_frame (df : List RawCase) (s1 s2 : ℚ) :
    (App.compute_metrics df s1).map (fun r => { r with cumple_SLA := false }) =
      (App.compute_metrics df s2).map (fun r => { r with cumple_SLA := false }) ∧
    { App.summarize (App.compute_metrics df s1) s1 with cumplimiento := none } =
      { App.summarize (App.compute_metrics df s2) s2 with cumplimiento := none } ∧
    (App3.compute_metrics df s1).map (fun r => { r with cumple_SLA := false }) =
      (App3.compute_metrics df s2).map (fun r => { r with cumple_SLA := false }) ∧
    { App3.summarize (App3.compute_metrics df s1) s1 with cumplimiento := none } =
      { App3.summarize (App3.compute_metrics df s2) s2 with cumplimiento := none } := by
  refine ⟨?_, ?_, ?_, ?_⟩
  · unfold App.compute_metrics
    rw [List.map_map, List.map_map]
    exact List.map_congr_left fun c _ => rfl
  · rw [app_summarize_canon df s1, app_summarize_canon df s2]
    by_cases h : appOk df = []
    · rw [if_pos h, if_pos h]
    · rw [if_neg h, if_neg h]
  · unfold App3.compute_metrics
    by_cases hdf : df = []
    · rw [if_pos hdf, if_pos hdf]
    · rw [if_neg hdf, if_neg hdf, List.map_map, List.map_map]
      exact List.map_congr_left fun c _ => rfl
  · rw [app3_summarize_canon df s1, app3_summarize_canon df s2]
    by_cases h : app3Ok df = []
    · rw [if_pos h, if_pos h]
    · rw [if_neg h, if_neg h]

/-- C7: the median and the 90th percentile reported by `summarize` are
invariant under any permutation of the input rows (and deterministic,
being values of a function), in both pipelines. -/
theorem claim7_order_invariant (df1 df2 : List RawCase) (sla : ℚ)
    (h : List.Perm df1 df2) :
    (App.summarize (App.compute_metrics df1 sla) sla).mediana_min =
      (App.summarize (App.compute_metrics df2 sla) sla).mediana_min ∧
    (App.summarize (App.compute_metrics df1 sla) sla).p90_min =
      (App.summarize (App.compute_metrics df2 sla) sla).p90_min ∧
    (App3.summarize (App3.compute_metrics df1 sla) sla).mediana_min =
      (App3.summarize (App3.compute_metrics df2 sla) sla).mediana_min ∧
    (App3.summarize (App3.compute_metrics df1 sla) sla).p90_min =
      (App3.summarize (App3.compute_metrics df2 sla) sla).p90_min := by
  have hOk : (appOk df1).Perm (appOk df2) := h.filter _
  have hTot : (appTotals df1).Perm (appTotals df2) := h.filterMap _
  have hOk3 : (app3Ok df1).Perm (app3Ok df2) := h.filter _
  have hTot3 : (app3Totals df1).Perm (app3Totals df2) := h.filterMap _
  rw [app_summarize_canon df1 sla, app_summarize_canon df2 sla,
    app3_summarize_canon df1 sla, app3_summarize_canon df2 sla]
  refine ⟨?_, ?_, ?_, ?_⟩
  · by_cases h1 : appOk df1 = []
    · rw [if_pos h1, if_pos ((h1 ▸ hOk).symm.eq_nil)]
    · rw [if_neg h1, if_neg fun hh => h1 (hh ▸ hOk).eq_nil]
      exact nanmedian_perm hTot
  · by_cases h1 : appOk df1 = []
    · rw [if_pos h1, if_pos ((h1 ▸ hOk).symm.eq_nil)]
    · rw [if_neg h1, if_neg fun hh => h1 (hh ▸ hOk).eq_nil]
      exact nanpercentile90_perm hTot
  · by_cases h1 : app3Ok df1 = []
    · rw [if_pos h1, if_pos ((h1 ▸ hOk3).symm.eq_nil)]
    · rw [if_neg h1, if_neg fun hh => h1 (hh ▸ hOk3).eq_nil]
      exact nanmedian_perm hTot3
  · by_cases h1 : app3Ok df1 = []
    · rw [if_pos h1, if_pos ((h1 ▸ hOk3).symm.eq_nil)]
    · rw [if_neg h1, if_neg fun hh => h1 (hh ▸ hOk3).eq_nil]
      exact nanpercentile90_perm hTot3

/-- Witness for C7 at a concrete two-element collection and its swap. -/
theorem claim7_order_invariant_witness :
    (App.summarize (App.compute_metrics [exFull, exNeg] 30) 30).mediana_min =
      (App.summarize (App.compute_metrics [exNeg, exFull] 30) 30).mediana_min ∧
    (App.summarize (App.compute_metrics [exFull, exNeg] 30) 30).p90_min =
      (App.summarize (App.compute_metrics [exNeg, exFull] 30) 30).p90_min ∧
    (App3.summarize (App3.compute_metrics [exFull, exNeg] 30) 30).mediana_min =
      (App3.summarize (App3.compute_metrics [exNeg, exFull] 30) 30).mediana_min ∧
    (App3.summarize (App3.compute_metrics [exFull, exNeg] 30) 30).p90_min =
      (App3.summarize (App3.compute_metrics [exNeg, exFull] 30) 30).p90_min :=
  claim7_order_invariant [exFull, exNeg] [exNeg, exFull] 30
    (List.Perm.swap exNeg exFull [])

/-- C10: a case with a defined negative total duration satisfies the SLA
flag for every positive threshold, lands in the compliance denominator
(the `df_ok` subset) and in the numerator (the `<=` count), and forces a
strictly positive compliance rate, in both pipelines. -/
theorem claim10_negative_counted_compliant (df : List RawCase) (sla m : ℚ)
    (c : RawCase) (hc : c ∈ df)
    (hmA : (App.compute_row sla c).min_total = some m)
    (hm3 : (App3.compute_row sla c).min_total = some m)
    (hneg : m < 0) (hpos : 0 < sla) :
    (App.compute_row sla c).cumple_SLA = true ∧
    (App3.compute_row sla c).cumple_SLA = true ∧
    c ∈ appOk df ∧
    0 < (appOk df).countP (fun a =>
      match appRowTotal a with
      | some x => decide (x ≤ sla)
      | none => false) ∧
    (∃ q, (App.summarize (App.compute_metrics df sla) sla).cumplimiento =
        some q ∧ 0 < q) ∧
    c ∈ app3Ok df ∧
    0 < (app3Ok df).countP (fun a =>
      match app3RowTotal a with
      | some x => decide (x ≤ sla)
      | none => false) ∧
    (∃ q, (App3.summarize (App3.compute_metrics df sla) sla).cumplimiento =
        some q ∧ 0 < q) := by
  rw [app_row_min_total] at hmA
  rw [app3_row_min_total] at hm3
  have hle : m ≤ sla := (hneg.trans hpos).le
  have hmemA : c ∈ appOk df := by
    unfold appOk
    exact List.mem_filter.mpr ⟨hc, by rw [hmA]; rfl⟩
  have hmem3 : c ∈ app3Ok df := by
    unfold app3Ok
    exact List.mem_filter.mpr ⟨hc, by rw [hm3]; rfl⟩
  have hcntA : 0 < (appOk df).countP (fun a =>
      match appRowTotal a with
      | some x => decide (x ≤ sla)
      | none => false) := by
    refine List.countP_pos_iff.mpr ⟨c, hmemA, ?_⟩
    rw [hmA]
    exact decide_eq_true hle
  have hcnt3 : 0 < (app3Ok df).countP (fun a =>
      match app3RowTotal a with
      | some x => decide (x ≤ sla)
      | none => false) := by
    refine List.countP_pos_iff.mpr ⟨c, hmem3, ?_⟩
    rw [hm3]
    exact decide_eq_true hle
  have hlenA : 0 < (appOk df).length :=
    List.length_pos.mpr (List.ne_nil_of_mem hmemA)
  have hlen3 : 0 < (app3Ok df).length :=
    List.length_pos.mpr (List.ne_nil_of_mem hmem3)
  refine ⟨?_, ?_, hmemA, hcntA, ?_, hmem3, hcnt3, ?_⟩
  · rw [app_row_cumple, hmA]
    exact decide_eq_true hle
  · rw [app3_row_cumple, hm3]
    exact decide_eq_true hle
  · rw [app_summarize_canon df sla, if_neg (List.ne_nil_of_mem hmemA)]
    refine ⟨_, rfl, ?_⟩
    exact div_pos (mul_pos (by norm_num) (by exact_mod_cast hcntA))
      (by exact_mod_cast hlenA)
  · rw [app3_summarize_canon df sla, if_neg (List.ne_nil_of_mem hmem3)]
    refine ⟨_, rfl, ?_⟩
    exact div_pos (mul_pos (by norm_num) (by exact_mod_cast hcnt3))
      (by exact_mod_cast hlen3)

/-- Witness for C10 at the concrete case whose communication precedes its
reception by 14.5 minutes, with threshold 30. -/
theorem claim10_negative_counted_compliant_witness :
    (App.compute_row 30 exNeg).cumple_SLA = true ∧
    (App3.compute_row 30 exNeg).cumple_SLA = true ∧
    exNeg ∈ appOk [exNeg] ∧
    0 < (appOk [exNeg]).countP (fun a =>
      match appRowTotal a with
      | some x => decide (x ≤ (30 : ℚ))
      | none => false) ∧
    (∃ q, (App.summarize (App.compute_metrics [exNeg] 30) 30).cumplimiento =
        some q ∧ 0 < q) ∧
    exNeg ∈ app3Ok [exNeg] ∧
    0 < (app3Ok [exNeg]).countP (fun a =>
      match app3RowTotal a with
      | some x => decide (x ≤ (30 : ℚ))
      | none => false) ∧
    (∃ q, (App3.summarize (App3.compute_metrics [exNeg] 30) 30).cumplimiento =
        some q ∧ 0 < q) :=
  claim10_negative_counted_compliant [exNeg] 30 (((30 : ℚ) - 900) / 60) exNeg
    (List.mem_singleton.mpr rfl) rfl rfl (by norm_num) (by norm_num)

/-- A directly constructed metrics row with a defined total duration (1
minute) and a defined reception→diagnosis interval (2 minutes). -/
def exRow : CaseMetrics :=
  { estado := none, t_inicio := none, t_recepcion := some 0,
    t_criostato := none, t_diagnostico := none, t_comunicado := some 60,
    min_recep_a_diag := some 2, min_diag_a_com := none, min_total := some 1,
    cumple_SLA := true, estado_calc := "reportado" }

/-- Counterexample to C3: on the two-case collection where one case has
reception→diagnosis of 10 min with a defined total and the other has
reception→diagnosis of 100 min with an undefined total, both
implementations report `prom_recep_diag = 10`, not the mean `55` over all
cases with that interval defined — the per-interval sample sets are NOT
independent. -/
theorem claim3_counterexample :
    (App.summarize (App.compute_metrics [exFull, exNoCom] 30) 30).prom_recep_diag ≠
      spec_prom_recep_diag (App.compute_metrics [exFull, exNoCom] 30) ∧
    (App3.summarize (App3.compute_metrics [exFull, exNoCom] 30) 30).prom_recep_diag ≠
      spec_prom_recep_diag (App3.compute_metrics [exFull, exNoCom] 30) := by
  have e : App.compute_metrics [exFull, exNoCom] 30 =
      [App.compute_row 30 exFull, App.compute_row 30 exNoCom] := rfl
  have e3 : App3.compute_metrics [exFull, exNoCom] 30 =
      [App3.compute_row 30 exFull, App3.compute_row 30 exNoCom] := by
    unfold App3.compute_metrics
    rw [if_neg (by decide)]
    rfl
  constructor
  · have h1 : (App.summarize (App.compute_metrics [exFull, exNoCom] 30) 30).prom_recep_diag
        = some 10 := by
      rw [e]
      norm_num [App.summarize, App.compute_row, App.parse_iso,
        App.duration_minutes, nanmean, exFull, exNoCom, List.filter_cons,
        List.filterMap_cons, List.reduceOption]
    have h2 : spec_prom_recep_diag (App.compute_metrics [exFull, exNoCom] 30)
        = some 55 := by
      rw [spec_prom_recep_diag, e]
      have e2 : [App.compute_row 30 exFull, App.compute_row 30 exNoCom].map
          (fun r => r.min_recep_a_diag) = [some 10, some 100] := by
        norm_num [App.compute_row, App.parse_iso, App.duration_minutes,
          exFull, exNoCom]
      rw [e2]
      norm_num [nanmean, List.reduceOption]
      refine ⟨by simp, ?_⟩
      norm_num [List.filterMap_cons, id_eq]
    rw [h1, h2]
    norm_num
  · have h1 : (App3.summarize (App3.compute_metrics [exFull, exNoCom] 30) 30).prom_recep_diag
        = some 10 := by
      rw [e3]
      norm_num [App3.summarize, App3.compute_row, App3.to_datetime,
        App3.subMinutes, nanmean, exFull, exNoCom, List.filter_cons,
        List.filterMap_cons, List.reduceOption]
    have h2 : spec_prom_recep_diag (App3.compute_metrics [exFull, exNoCom] 30)
        = some 55 := by
      rw [spec_prom_recep_diag, e3]
      have e2 : [App3.compute_row 30 exFull, App3.compute_row 30 exNoCom].map
          (fun r => r.min_recep_a_diag) = [some 10, some 100] := by
        norm_num [App3.compute_row, App3.to_datetime, App3.subMinutes,
          exFull, exNoCom]
      rw [e2]
      norm_num [nanmean, List.reduceOption]
      refine ⟨by simp, ?_⟩
      norm_num [List.filterMap_cons, id_eq]
    rw [h1, h2]
    norm_num

/-- C3 as amended: in both implementations, whenever the defined-total
subset is non-empty, each per-interval average is the mean over the cases
whose total duration AND that specific interval are both defined — a case
with a defined interval but an undefined total does not contribute. -/
theorem claim3_amended_interval_means (rows : List CaseMetrics) (sla : ℚ)
    (hok : rows.filter (fun r => r.min_total.isSome) ≠ []) :
    ((App.summarize rows sla).prom_recep_diag =
      if (rows.filter fun r => r.min_total.isSome && r.min_recep_a_diag.isSome) = []
      then none
      else some (((rows.filter fun r =>
          r.min_total.isSome && r.min_recep_a_diag.isSome).filterMap
            fun r => r.min_recep_a_diag).sum /
        (((rows.filter fun r =>
          r.min_total.isSome && r.min_recep_a_diag.isSome).length : ℕ) : ℚ))) ∧
    ((App.summarize rows sla).prom_diag_com =
      if (rows.filter fun r => r.min_total.isSome && r.min_diag_a_com.isSome) = []
      then none
      else some (((rows.filter fun r =>
          r.min_total.isSome && r.min_diag_a_com.isSome).filterMap
            fun r => r.min_diag_a_com).sum /
        (((rows.filter fun r =>
          r.min_total.isSome && r.min_diag_a_com.isSome).length : ℕ) : ℚ))) ∧
    (App3.summarize rows sla).prom_recep_diag =
      (App.summarize rows sla).prom_recep_diag ∧
    (App3.summarize rows sla).prom_diag_com =
      (App.summarize rows sla).prom_diag_com := by
  refine ⟨?_, ?_, ?_, ?_⟩
  · rw [App.summarize]
    simp only [if_neg hok]
    exact nanmean_map_filter _ _ rows
  · rw [App.summarize]
    simp only [if_neg hok]
    exact nanmean_map_filter _ _ rows
  · rw [App.summarize, App3.summarize]
    simp only [if_neg hok]
  · rw [App.summarize, App3.summarize]
    simp only [if_neg hok]

/-- Witness for the amended C3 at a concrete one-row collection. -/
theorem claim3_amended_interval_means_witness :
    ((App.summarize [exRow] 30).prom_recep_diag =
      if ([exRow].filter fun r => r.min_total.isSome && r.min_recep_a_diag.isSome) = []
      then none
      else some ((([exRow].filter fun r =>
          r.min_total.isSome && r.min_recep_a_diag.isSome).filterMap
            fun r => r.min_recep_a_diag).sum /
        ((([exRow].filter fun r =>
          r.min_total.isSome && r.min_recep_a_diag.isSome).length : ℕ) : ℚ))) ∧
    ((App.summarize [exRow] 30).prom_diag_com =
      if ([exRow].filter fun r => r.min_total.isSome && r.min_diag_a_com.isSome) = []
      then none
      else some ((([exRow].filter fun r =>
          r.min_total.isSome && r.min_diag_a_com.isSome).filterMap
            fun r => r.min_diag_a_com).sum /
        ((([exRow].filter fun r =>
          r.min_total.isSome && r.min_diag_a_com.isSome).length : ℕ) : ℚ))) ∧
    (App3.summarize [exRow] 30).prom_recep_diag =
      (App.summarize [exRow] 30).prom_recep_diag ∧
    (App3.summarize [exRow] 30).prom_diag_com =
      (App.summarize [exRow] 30).prom_diag_com :=
  claim3_amended_interval_means [exRow] 30 (by decide)

/-- Counterexample to C4: on a one-case collection whose single case lacks
a communication timestamp, `summarize` in `app.py` does NOT report the raw
case count, a zero TAT count and a zero compliance rate — it returns the
bare `{"n": 0}` sentinel, so `n = 0 ≠ 1` and the other keys are absent. -/
theorem claim4_counterexample :
    ¬ ((App.summarize (App.compute_metrics [exNoCom] 30) 30).n =
        ([exNoCom] : List RawCase).length ∧
      (App.summarize (App.compute_metrics [exNoCom] 30) 30).n_con_TAT = some 0 ∧
      (App.summarize (App.compute_metrics [exNoCom] 30) 30).cumplimiento = some 0) := by
  decide

/-- C4 as amended: when no case has a defined total duration, `app3.py`
returns the fully populated summary (raw count, zero TAT count, `0.0`
compliance, all sample statistics undefined).  The `app.py` pipeline
instead yields the bare `{"n": 0}` dict with every other statistic absent
whenever its `compute_metrics` succeeds — and on the empty collection
`compute_metrics` itself raises `ValueError`, so `summarize` is never
reached there. -/
theorem claim4_amended_empty_defined (df : List RawCase) (sla : ℚ)
    (hA : appOk df = []) (h3 : app3Ok df = []) :
    App3.summarize (App3.compute_metrics df sla) sla =
      { n := df.length, n_con_TAT := some 0, mediana_min := none,
        p90_min := none, cumplimiento := some 0, prom_recep_diag := none,
        prom_diag_com := none } ∧
    (∀ rows, App.compute_metrics_df df sla = Except.ok rows →
      App.summarize rows sla =
        { n := 0, n_con_TAT := none, mediana_min := none, p90_min := none,
          cumplimiento := none, prom_recep_diag := none,
          prom_diag_com := none }) ∧
    (df = [] →
      App.compute_metrics_df df sla =
        Except.error
          "ValueError: Cannot set a DataFrame with multiple columns to the single column min_recep_a_diag") := by
  refine ⟨?_, ?_, ?_⟩
  · rw [app3_summarize_canon, if_pos h3]
  · intro rows hrows
    unfold App.compute_metrics_df at hrows
    by_cases hdf : df = []
    · rw [if_pos hdf] at hrows
      exact absurd hrows (by simp)
    · rw [if_neg hdf] at hrows
      have : rows = App.compute_metrics df sla := (Except.ok.injEq _ _).mp hrows.symm
      subst this
      rw [app_summarize_canon, if_pos hA]
  · intro hdf
    subst hdf
    rfl

/-- Witness for the amended C4 at the one-case no-communication
collection, whose `compute_metrics` run succeeds. -/
theorem claim4_amended_empty_defined_witness :
    App3.summarize (App3.compute_metrics [exNoCom] 30) 30 =
      { n := ([exNoCom] : List RawCase).length, n_con_TAT := some 0,
        mediana_min := none, p90_min := none, cumplimiento := some 0,
        prom_recep_diag := none, prom_diag_com := none } ∧
    App.summarize (App.compute_metrics [exNoCom] 30) 30 =
      { n := 0, n_con_TAT := none, mediana_min := none, p90_min := none,
        cumplimiento := none, prom_recep_diag := none, prom_diag_com := none } :=
  ⟨(claim4_amended_empty_defined [exNoCom] 30 (by decide) (by decide)).1,
   (claim4_amended_empty_defined [exNoCom] 30 (by decide) (by decide)).2.1
     (App.compute_metrics [exNoCom] 30) rfl⟩

/-- Counterexample to C9: on the case whose reception text is pandas-only
parseable, the row-wise `app.py` pipeline yields an undefined `min_total`
while the vectorized `app3.py` pipeline yields a defined one — the derived
values differ. -/
theorem claim9_counterexample :
    (App.compute_metrics [exPandas] 30).map derivedVals ≠
      (App3.compute_metrics [exPandas] 30).map derivedVals := by
  decide

/-- C9 as amended: the two pipelines produce identical derived values for
every collection in which the reception, diagnosis and communication text
of every case is treated alike by `datetime.fromisoformat` and
`pd.to_datetime` (in particular all strict-ISO, absent or fully
unparseable fields); they may diverge only on text that pandas alone
parses. -/
theorem claim9_amended_equiv_on_agreeing (df : List RawCase) (sla : ℚ)
    (h : ∀ c ∈ df, c.t_recepcion.bothAgree = true ∧
      c.t_diagnostico.bothAgree = true ∧ c.t_comunicado.bothAgree = true) :
    (App.compute_metrics df sla).map derivedVals =
      (App3.compute_metrics df sla).map derivedVals := by
  unfold App.compute_metrics App3.compute_metrics
  by_cases hdf : df = []
  · subst hdf
    rfl
  · rw [if_neg hdf, List.map_map, List.map_map]
    exact List.map_congr_left fun c hc =>
      derived_row_agree sla c (h c hc).1 (h c hc).2.1 (h c hc).2.2

/-- Witness for the amended C9 on a three-case collection with strict-ISO,
absent and fully-unparseable fields. -/
theorem claim9_amended_equiv_on_agreeing_witness :
    (App.compute_metrics [exFull, exNoCom, exBad] 30).map derivedVals =
      (App3.compute_metrics [exFull, exNoCom, exBad] 30).map derivedVals :=
  claim9_amended_equiv_on_agreeing [exFull, exNoCom, exBad] 30 (by decide)
